import Mathlib

/-!
Verification development for the MCP protocol-client core of the crawler
repository (file `ai_mcp_crawler_complete.py`): the classes
`MCPProtocolClient` (process spawning, JSON-RPC exchange, capability
collection) and `MCPAuthDetector` (auth-signal extraction).

The Python code is shallowly embedded: Python values flowing through the
client are modelled by `Json`, raisable Python exceptions by `PyErr` and
`Except`, and the behaviour of the child process (what each blocking
operation of one connection attempt returns) by an explicit `Behavior`
record.  Every definition mirrors a specific region of the source file,
cited by line numbers in its doc comment.
-/

namespace MCPCrawler

/-- A Python value as it occurs in this program: the result of `json.loads`
plus the Python constants used by the client (`None`, booleans, numbers,
strings, lists, dicts).  Numbers are modelled as integers: the client never
computes with numeric payloads, it only stores and tests them. -/
inductive Json where
  | null
  | bool (b : Bool)
  | num (n : Int)
  | str (s : String)
  | arr (elems : List Json)
  | obj (fields : List (String × Json))

/-- Python type name of a value, used in exception messages. -/
def Json.typeName : Json → String
  | .null => "NoneType"
  | .bool _ => "bool"
  | .num _ => "int"
  | .str _ => "str"
  | .arr _ => "list"
  | .obj _ => "dict"

/-- The Python exceptions this code can raise.  Message text is abbreviated
(no quotes around names); no claim depends on the exact message string. -/
inductive PyErr where
  | attributeError (tyName attr : String)
  | typeError (msg : String)
  | osError (msg : String)
deriving DecidableEq

/-- `str(e)` for a raised exception, as recorded in the error outcome. -/
def PyErr.pyStr : PyErr → String
  | .attributeError ty attr => ty ++ " object has no attribute " ++ attr
  | .typeError m => m
  | .osError m => m

/-- Python truthiness (`bool(x)`): `None`, `False`, `0`, the empty string,
the empty list and the empty dict are falsy. -/
def Json.truthy : Json → Bool
  | .null => false
  | .bool b => b
  | .num n => n != 0
  | .str s => s != ""
  | .arr xs => !xs.isEmpty
  | .obj fs => !fs.isEmpty

/-- First-match association lookup.  `json.loads` produces dicts with
unique keys, so first-match lookup agrees with Python dict lookup. -/
def lookupField : List (String × Json) → String → Option Json
  | [], _ => none
  | (k, v) :: rest, key => if k == key then some v else lookupField rest key

/-- `x.get(key, default)`: raises `AttributeError` unless `x` is a dict. -/
def Json.get (j : Json) (key : String) (default : Json) : Except PyErr Json :=
  match j with
  | .obj fs => .ok ((lookupField fs key).getD default)
  | _ => .error (.attributeError j.typeName "get")

/-- `list(x.keys())`: raises `AttributeError` unless `x` is a dict. -/
def Json.keysList (j : Json) : Except PyErr (List String) :=
  match j with
  | .obj fs => .ok (fs.map Prod.fst)
  | _ => .error (.attributeError j.typeName "keys")

/-- `len(x)`: defined for strings, lists and dicts; `TypeError` otherwise. -/
def Json.pyLen (j : Json) : Except PyErr Nat :=
  match j with
  | .str s => .ok s.length
  | .arr xs => .ok xs.length
  | .obj fs => .ok fs.length
  | _ => .error (.typeError ("object of type " ++ j.typeName ++ " has no len"))

/-- Iteration (`for x in v`): list elements; characters of a string (each a
one-character string); keys of a dict.  `TypeError` otherwise. -/
def Json.pyIter (j : Json) : Except PyErr (List Json) :=
  match j with
  | .arr xs => .ok xs
  | .str s => .ok (s.toList.map (fun c => Json.str (String.mk [c])))
  | .obj fs => .ok (fs.map (fun f => Json.str f.1))
  | _ => .error (.typeError (j.typeName ++ " object is not iterable"))

/-- `v[:3]`: slicing is defined for strings and lists; `TypeError`
otherwise (dicts are not sliceable). -/
def Json.pySlice3 (j : Json) : Except PyErr Json :=
  match j with
  | .str s => .ok (.str (String.mk (s.toList.take 3)))
  | .arr xs => .ok (.arr (xs.take 3))
  | _ => .error (.typeError (j.typeName ++ " object is not subscriptable"))

/-- ASCII `str.upper()` (Python `.upper()` on the ASCII text this program
handles), written via `List.map` so that it reduces in the kernel. -/
def pyUpperStr (s : String) : String := String.mk (s.toList.map Char.toUpper)

/-- ASCII `str.lower()`, written via `List.map` so that it reduces in the
kernel. -/
def pyLowerStr (s : String) : String := String.mk (s.toList.map Char.toLower)

/-- `x.lower()`: raises `AttributeError` unless `x` is a string. -/
def Json.pyLower (j : Json) : Except PyErr String :=
  match j with
  | .str s => .ok (pyLowerStr s)
  | _ => .error (.attributeError j.typeName "lower")

/-- Is `n` a contiguous sublist of the second argument? -/
def infixOfB (n : List Char) : List Char → Bool
  | [] => n.isEmpty
  | c :: t => List.isPrefixOf n (c :: t) || infixOfB n t

/-- `needle in hay` for strings (substring containment), as a Boolean. -/
def substrB (needle hay : String) : Bool :=
  infixOfB needle.toList hay.toList

/-- `list(set(xs))`: deduplication.  Python set iteration order is
unspecified; the embedding fixes first-occurrence order.  No claim proved
below depends on the order of a multi-element deduplicated list. -/
def pySet (xs : List String) : List String :=
  xs.foldl (fun acc x => if x ∈ acc then acc else acc ++ [x]) []

/-!
A small regular-expression engine, sufficient for (and specialised to) the
fixed patterns of `MCPAuthDetector.extract_auth_from_mcp_result`
(lines 380-388 and 429).  Each pattern there is a sequence of
case-insensitive literals, character-class quantifiers and exactly one
capturing group, so a pattern is modelled as pre-tokens, group tokens and
post-tokens.  Matching follows Python backtracking semantics: alternatives
are enumerated in priority order (greedy quantifiers longest-first) and the
first complete match wins; `findall` scans left to right, emitting the
group of each leftmost non-overlapping match.  ASCII scope: the inputs the
detector receives are ASCII text, and `\s` is modelled by ASCII whitespace. -/

/-- The character classes occurring in the detector's patterns.  The `CI`
classes are `[A-Z]`/`[A-Z0-9_]` as compiled with `re.IGNORECASE` (tier 1);
the `CS` classes are the same, case-sensitive (tier 3, line 429). -/
inductive CC where
  | wsOrColon
  | alphaCI
  | identCI
  | upperCS
  | identCS

/-- Character-class membership. -/
def CC.mem : CC → Char → Bool
  | .wsOrColon, c => c == ':' || c == ' ' || c == '\t' || c == '\n' || c == '\r' || c == '\x0b' || c == '\x0c'
  | .alphaCI, c => c.isUpper || c.isLower
  | .identCI, c => c.isUpper || c.isLower || c.isDigit || c == '_'
  | .upperCS, c => c.isUpper
  | .identCS, c => c.isUpper || c.isDigit || c == '_'

/-- One regex token: a case-insensitive literal, a single class character,
an optional character (for the `s?` of pattern 7), or a greedy class
quantifier (`+` is `rep 1`; `{n,}` preceded by a class char covers the
capture shapes). -/
inductive Tok where
  | lit (s : String)
  | cls (c : CC)
  | optC (c : Char)
  | plus (c : CC)
  | rep (c : CC) (min : Nat)

/-- Case-insensitive literal match: consumed input characters and rest. -/
def stripLitCI : List Char → List Char → Option (List Char × List Char)
  | [], s => some ([], s)
  | _ :: _, [] => none
  | p :: ps, c :: cs =>
    if p.toLower == c.toLower then
      (stripLitCI ps cs).map (fun pr => (c :: pr.1, pr.2))
    else none

/-- Maximal prefix of the input inside class `c`. -/
def ccRun (c : CC) : List Char → List Char
  | [] => []
  | ch :: t => if c.mem ch then ch :: ccRun c t else []

/-- All ways a greedy `c{min,}` can split the input, longest consumed
first (the order a backtracking engine tries them). -/
def greedySplits (c : CC) (min : Nat) (s : List Char) : List (List Char × List Char) :=
  (List.range ((ccRun c s).length + 1)).reverse.filterMap
    (fun k => if min ≤ k then some (s.take k, s.drop k) else none)

/-- Alternatives of one token on an input, in backtracking priority
order; each alternative is (consumed characters, rest). -/
def tokAlts : Tok → List Char → List (List Char × List Char)
  | .lit str, s =>
    match stripLitCI str.toList s with
    | some pr => [pr]
    | none => []
  | .cls c, s =>
    match s with
    | [] => []
    | ch :: r => if c.mem ch then [([ch], r)] else []
  | .optC ch, s =>
    match s with
    | [] => [([], [])]
    | c0 :: r =>
      if c0.toLower == ch.toLower then [([c0], r), ([], c0 :: r)]
      else [([], c0 :: r)]
  | .plus c, s => greedySplits c 1 s
  | .rep c n, s => greedySplits c n s

/-- Alternatives of a token sequence, in backtracking priority order. -/
def matchToks : List Tok → List Char → List (List Char × List Char)
  | [], s => [([], s)]
  | t :: ts, s =>
    (tokAlts t s).flatMap fun a =>
      (matchToks ts a.2).map fun b => (a.1 ++ b.1, b.2)

/-- A detector pattern: tokens before the capturing group, the group
itself, and tokens after it. -/
structure Pattern where
  pre : List Tok
  grp : List Tok
  post : List Tok

/-- Anchored match of a pattern at the start of the input: the first
(highest-priority) complete match, returning (group text, rest). -/
def matchPatternAt (p : Pattern) (s : List Char) : Option (List Char × List Char) :=
  ((matchToks p.pre s).flatMap fun a =>
    (matchToks p.grp a.2).flatMap fun g =>
      (matchToks p.post g.2).map fun q => (g.1, q.2)).head?

/-- `re.findall` body: scan left to right; on a match emit its group and
continue after the match, otherwise advance one character.  Fuel bounds
the scan; `input.length + 1` is enough since every pattern used below
consumes at least one character per match. -/
def findallAux (p : Pattern) : Nat → List Char → List String
  | 0, _ => []
  | fuel + 1, s =>
    match matchPatternAt p s with
    | some (g, rest) => String.mk g :: findallAux p fuel rest
    | none =>
      match s with
      | [] => []
      | _ :: t => findallAux p fuel t

/-- `re.findall(pattern, s)` for a single-group pattern. -/
def findall (p : Pattern) (s : String) : List String :=
  findallAux p (s.length + 1) s.toList

/-- The capture `([A-Z][A-Z0-9_]{3,})` common to all eight tier-1
patterns (compiled with `re.IGNORECASE`). -/
def capTok3 : List Tok := [Tok.cls CC.alphaCI, Tok.rep CC.identCI 3]

/-- The eight `auth_error_patterns` of lines 380-388, in order. -/
def authErrorPatterns : List Pattern :=
  [⟨[.lit "missing required environment variable", .plus .wsOrColon], capTok3, []⟩,
   ⟨[.lit "environment variable "], capTok3, [.lit " is required"]⟩,
   ⟨[.lit "please set "], capTok3, []⟩,
   ⟨[], capTok3, [.lit " not found"]⟩,
   ⟨[], capTok3, [.lit " is not set"]⟩,
   ⟨[.lit "missing "], capTok3, []⟩,
   ⟨[.lit "require", .optC 's', .lit " "], capTok3, []⟩,
   ⟨[.lit "set the "], capTok3, [.lit " environment variable"]⟩]

/-- The tier-3 pattern `([A-Z][A-Z0-9_]{4,})` of line 429 (no flags, so
case-sensitive). -/
def tier3Pattern : Pattern := ⟨[], [Tok.cls CC.upperCS, Tok.rep CC.identCS 4], []⟩

/-- Tier-1 keyword allowlist (line 395). -/
def kw7 : List String := ["key", "token", "secret", "auth", "api", "url", "client"]

/-- Tier-3 keyword allowlist (line 431) - note: no url, no client. -/
def kw5 : List String := ["key", "token", "secret", "auth", "api"]

/-- The tier-1 acceptance test `any(keyword in match.lower() for ...)`. -/
def kwAccept7 (m : String) : Bool := kw7.any (fun k => substrB k (pyLowerStr m))

/-- The tier-3 acceptance test `any(keyword in var.lower() for ...)`. -/
def kwAccept5 (m : String) : Bool := kw5.any (fun k => substrB k (pyLowerStr m))

/-!  The connection outcome and the auth detector.  -/

/-- The result dict of one connection attempt, as returned by
`connect_to_mcp` / `_communicate_with_server`.  The Python code returns
dicts with different key sets on different paths, so every key that any
return site writes is an `Option` field; `none` means the key is absent
from that dict.  (The constant `additional_data` key of line 327, always
the empty dict, is omitted.) -/
structure Outcome where
  success : Bool
  error : Option String := none
  stderr : Option String := none
  raw_response : Option String := none
  tools : Option Json := none
  resources : Option Json := none
  prompts : Option Json := none
  protocol_version : Option Json := none
  server_info : Option Json := none
  capabilities : Option Json := none
  total_functionality : Option Nat := none

/-- The combined error text of tier 1: `f"{error} {stderr}".upper()`
(lines 370-374), with the dict lookups defaulting to the empty string. -/
def allErrorsOf (o : Outcome) : String :=
  pyUpperStr ((o.error.getD "") ++ " " ++ (o.stderr.getD ""))

/-- The tier-1 candidate list (lines 380-397): every capture of every
pattern over the combined error text, in pattern order, kept when it
contains a tier-1 keyword, then uppercased as appended. -/
def tier1Vars (o : Outcome) : List String :=
  (((authErrorPatterns.map (fun p => findall p (allErrorsOf o))).flatten).filter
    kwAccept7).map pyUpperStr

/-- The tier-3 candidate list (lines 427-433): the captures of the loose
pattern over the raw stderr text, kept when they contain a tier-3
keyword (appended without further uppercasing). -/
def tier3Vars (stderr : String) : List String :=
  (findall tier3Pattern stderr).filter kwAccept5

/-- The final tier-3 result list (line 436): deduplicate, keep at most 5. -/
def tier3Unique (o : Outcome) : List String :=
  (pySet (tier3Vars (o.stderr.getD ""))).take 5

/-- The tier-2 server-info inspection of lines 411-417: when the
`server_info` value is truthy, look up and lowercase its `name` and
`version` fields (the keyword test of line 416 only logs and cannot
raise).  On a non-dict truthy value, or non-string name/version values,
this raises `AttributeError`. -/
def tier2Check (server_info : Json) : Except PyErr Unit := do
  if server_info.truthy then
    let _server_name ← (← server_info.get "name" (Json.str "")).pyLower
    let _server_version ← (← server_info.get "version" (Json.str "")).pyLower

/-- `MCPAuthDetector.extract_auth_from_mcp_result` (lines 360-441).
Returns (auth_required, detected env var list); the function has no
exception handler of its own, so the `AttributeError`s its tier-2 server
info inspection can raise (lines 411-413, on a non-dict `server_info` or
non-string name/version fields) propagate to the caller, modelled by the
`Except` error case.  Tier 1 runs only on failures; its vacuous
`if all_errors:` guard (the combined text always contains a space) is
dropped.  Tier 3 reuses the (empty, at that point) tier-1 accumulator;
its `if stderr:` guard is dropped since scanning the empty string finds
nothing. -/
def extract_auth_from_mcp_result (o : Outcome) : Except PyErr (Bool × List String) := do
  let detected : List String := if !o.success then tier1Vars o else []
  if !detected.isEmpty then
    return (true, pySet detected)
  if o.success then
    let server_info := o.server_info.getD (Json.obj [])
    let _capabilities := o.capabilities.getD (Json.obj [])
    let _ ← tier2Check server_info
    return (false, [])
  let unique := tier3Unique o
  return (decide (0 < unique.length), unique)

/-!
The protocol client `MCPProtocolClient` (lines 84-355).  The child process
and the operating system are modelled by a `Behavior` record giving the
result of each externally-determined step of one connection attempt: the
spawn, the stderr peek, the four stdin writes and the four stdout reads.
Alongside the outcome, the embedding returns the trace of JSON-RPC
requests whose write was attempted, in order.
-/

/-- What `_start_mcp_server` (lines 112-148) observes: the process is
still running after the 3-second grace sleep, or it exited early
(`poll()` returned an exit code, line 140), or `Popen` itself raised
(line 146).  The latter two both make the function return `None`. -/
inductive SpawnResult where
  | started
  | exitedEarly (code : Int)
  | failed (msg : String)

/-- Result of one `stdin.write(...)` + `flush()`: succeeded, or raised
(for example a broken pipe once the child is gone). -/
inductive WriteResult where
  | ok
  | err (e : PyErr)

/-- Result of one `stdout.readline()`: the empty string at end of stream
(`eof`), or a line together with the result of `json.loads` on its
stripped text (`none` when the parse raises `JSONDecodeError`).  The
parse result is carried by the oracle because `json.loads` is external
library code. -/
inductive Line where
  | eof
  | text (raw : String) (parsed : Option Json)

/-- The behaviour of the child process (and OS) during one connection
attempt: everything the Python code observes from outside itself.
`stderrPeek` is the text captured by the non-blocking stderr check of
lines 183-192 (empty when nothing was buffered or the peek raised, both
leaving `stderr_data` empty); `stderrAtFailure` is the text produced by
the `process.stderr.read()` retry in the exception handler (lines
333-338, empty if that read raised). -/
structure Behavior where
  spawn : SpawnResult
  stderrPeek : String
  write1 : WriteResult
  line1 : Line
  write2 : WriteResult
  line2 : Line
  write3 : WriteResult
  line3 : Line
  write4 : WriteResult
  line4 : Line
  stderrAtFailure : String

/-- A JSON-RPC request as built by `_communicate_with_server`. -/
structure RpcReq where
  jsonrpc : String := "2.0"
  id : Nat
  method : String
  params : Json := Json.obj []

/-- The `initialize` request (lines 157-172). -/
def initRequest : RpcReq :=
  { id := 1, method := "initialize",
    params := Json.obj
      [("protocolVersion", Json.str "2024-11-05"),
       ("capabilities", Json.obj
         [("roots", Json.obj [("listChanged", Json.bool true)]),
          ("sampling", Json.obj [])]),
       ("clientInfo", Json.obj
         [("name", Json.str "e14z-ai-crawler"),
          ("version", Json.str "1.0.0")])] }

/-- The `tools/list` request (lines 225-230). -/
def toolsRequest : RpcReq := { id := 2, method := "tools/list" }

/-- The `resources/list` request (line 268). -/
def resourcesRequest : RpcReq := { id := 3, method := "resources/list" }

/-- The `prompts/list` request (line 286). -/
def promptsRequest : RpcReq := { id := 4, method := "prompts/list" }

/-- Result of the negotiation block (lines 194-222): an explicit early
`return` of a failure dict, an uncaught exception (headed for the
handler at line 330), or success carrying the extracted
`protocolVersion`, `serverInfo` and `capabilities` values. -/
inductive NegResult where
  | earlyReturn (o : Outcome)
  | raised (e : PyErr)
  | ok (pv si cap : Json)

/-- The `.get` chains and key listing the negotiation block runs on a
parsed response: the success log of line 204, then the extraction of
lines 215-218 (raising `AttributeError` when the response or its
`result` value is not a dict), then the capability-key listing of line
222 (raising when `capabilities` is not a dict). -/
def negotiateExtract (j : Json) : Except PyErr (Json × Json × Json) := do
  let r0 ← j.get "result" (Json.obj [])
  let _ ← r0.get "protocolVersion" (Json.str "unknown version")
  let r ← j.get "result" (Json.obj [])
  let pv ← r.get "protocolVersion" Json.null
  let si ← r.get "serverInfo" (Json.obj [])
  let cap ← r.get "capabilities" (Json.obj [])
  let _ ← cap.keysList
  pure (pv, si, cap)

/-- The negotiation block (lines 194-222): read one line; the empty
string returns the `No response from server` dict (196-200); a
`JSONDecodeError` returns the `Invalid JSON response` dict with the raw
line truncated to 200 characters (205-212); otherwise `negotiateExtract`
runs on the parsed response. -/
def negotiateStep (line1 : Line) (stderrData : String) : NegResult :=
  match line1 with
  | .eof =>
    .earlyReturn { success := false, error := some "No response from server",
                   stderr := some stderrData }
  | .text raw none =>
    .earlyReturn { success := false, error := some "Invalid JSON response",
                   stderr := some stderrData, raw_response := some (raw.take 200) }
  | .text _ (some j) =>
    match negotiateExtract j with
    | .error e => .raised e
    | .ok (pv, si, cap) => .ok pv si cap

/-- The tool-detail logging of lines 247-257: `len(tools)`, then for each
element its `name`, `description` and `inputSchema.properties` lookups,
listing the parameter keys when truthy.  Any of these can raise on a
malformed value. -/
def logTools (t : Json) : Except PyErr Unit := do
  let _ ← t.pyLen
  let elems ← t.pyIter
  elems.forM (fun tool => do
    let _ ← tool.get "name" (Json.str "unnamed")
    let _ ← tool.get "description" (Json.str "no description")
    let schema ← tool.get "inputSchema" (Json.obj [])
    let props ← schema.get "properties" (Json.obj [])
    if props.truthy then
      let _ ← props.keysList
      pure ()
    else pure ())

/-- The resource/prompt logging of lines 278-281 and 296-299: the length,
then `name` and `description` of the first three elements. -/
def logListed (t : Json) : Except PyErr Unit := do
  let _ ← t.pyLen
  let sliced ← t.pySlice3
  let elems ← sliced.pyIter
  elems.forM (fun r => do
    let _ ← r.get "name" (Json.str "unnamed")
    let _ ← r.get "description" (Json.str "no desc")
    pure ())

/-- One list-response block (the shape shared by lines 242-261, 273-283
and 291-301): nothing read, or a `JSONDecodeError` (caught by the inner
`except`), leaves the accumulator at the empty list with no exception;
otherwise the `.get('result', ...).get(field)` chain runs, the value is
assigned when truthy, and the logging runs.  Returns the final value of
the accumulator variable together with the exception, if one escaped the
block (the value is kept even then, since the assignment precedes the
logging). -/
def listValue (field : String) (logFn : Json → Except PyErr Unit) (line : Line) :
    Json × Option PyErr :=
  match line with
  | .eof => (Json.arr [], none)
  | .text _ none => (Json.arr [], none)
  | .text _ (some j) =>
    match (do
      let r ← j.get "result" (Json.obj [])
      r.get field Json.null : Except PyErr Json) with
    | .error e => (Json.arr [], some e)
    | .ok v =>
      if v.truthy then
        match logFn v with
        | .error e => (v, some e)
        | .ok _ => (v, none)
      else (Json.arr [], none)

/-- The list-value part of an outcome is reached only through the four
shapes above; on `eof` and unparsable lines the accumulator stays the
empty list and no exception escapes. -/
theorem listValue_eof (field : String) (logFn : Json → Except PyErr Unit) :
    listValue field logFn Line.eof = (Json.arr [], none) := rfl

/-- The resources/prompts block (lines 264-304), whose enclosing
`try/except Exception: pass` swallows any exception and falls through to
the summary: write the `resources/list` request (a raising write skips
the rest of the block), handle its response, then the same for
`prompts/list`.  Returns the final `resources` and `prompts` values and
the list requests attempted within the block. -/
def resPromptsStep (b : Behavior) : Json × Json × List RpcReq :=
  match b.write3 with
  | .err _ => (Json.arr [], Json.arr [], [resourcesRequest])
  | .ok =>
    match listValue "resources" logListed b.line3 with
    | (resVal, some _) => (resVal, Json.arr [], [resourcesRequest])
    | (resVal, none) =>
      match b.write4 with
      | .err _ => (resVal, Json.arr [], [resourcesRequest, promptsRequest])
      | .ok =>
        let pr := listValue "prompts" logListed b.line4
        (resVal, pr.1, [resourcesRequest, promptsRequest])

/-- The summary computation and success dict (lines 307-328):
`len(tools) + len(resources) + len(prompts)` (each `len` raising on a
non-sized value, headed for the handler at 330), then the `success: True`
dict.  The `functionality_breakdown` dict recomputes the same lengths and
two truthiness tests, raising nothing new, and is folded into the
`total_functionality` field here. -/
def finalizeStep (pv si cap tools resources prompts : Json) (stderrData : String) :
    Except PyErr Outcome := do
  let tc ← tools.pyLen
  let rc ← resources.pyLen
  let pc ← prompts.pyLen
  pure { success := true, tools := some tools, resources := some resources,
         prompts := some prompts, protocol_version := some pv,
         server_info := some si, capabilities := some cap,
         total_functionality := some (tc + rc + pc), stderr := some stderrData }

/-- The failure dict built by the handler at lines 330-344: the stringified
exception and a fresh best-effort stderr read. -/
def excOutcome (e : PyErr) (b : Behavior) : Outcome :=
  { success := false, error := some e.pyStr, stderr := some b.stderrAtFailure }

/-- `_communicate_with_server` (lines 150-344), instrumented with the trace
of requests whose write was attempted, in order.  Control flow: init
write (a raise goes to the handler at 330); stderr peek; negotiation
block; tools write and tools block (whose uncaught exceptions also reach
the handler); the self-guarded resources/prompts block; the summary. -/
def communicate_with_server (b : Behavior) : Outcome × List RpcReq :=
  match b.write1 with
  | .err e => (excOutcome e b, [initRequest])
  | .ok =>
    match negotiateStep b.line1 b.stderrPeek with
    | .earlyReturn o => (o, [initRequest])
    | .raised e => (excOutcome e b, [initRequest])
    | .ok pv si cap =>
      match b.write2 with
      | .err e => (excOutcome e b, [initRequest, toolsRequest])
      | .ok =>
        match listValue "tools" logTools b.line2 with
        | (_, some e) => (excOutcome e b, [initRequest, toolsRequest])
        | (tools, none) =>
          match resPromptsStep b with
          | (resources, prompts, rpTrace) =>
            match finalizeStep pv si cap tools resources prompts b.stderrPeek with
            | .error e => (excOutcome e b, [initRequest, toolsRequest] ++ rpTrace)
            | .ok o => (o, [initRequest, toolsRequest] ++ rpTrace)

/-- `connect_to_mcp` (lines 90-110): spawn (lines 112-148; early exit and
a raising `Popen` both return `None`, yielding the
`Failed to start MCP server` dict of line 98), then the exchange, then
cleanup (lines 346-355, which swallows its own errors and does not touch
the result).  The `timeout` argument is the `MCPProtocolClient.__init__`
attribute (line 87-88); the body never consults it.  The function is
total: every internal exception is caught and folded into the outcome. -/
def connect_to_mcp (_timeout : Nat) (b : Behavior) : Outcome × List RpcReq :=
  match b.spawn with
  | .started => communicate_with_server b
  | .exitedEarly _ => ({ success := false, error := some "Failed to start MCP server" }, [])
  | .failed _ => ({ success := false, error := some "Failed to start MCP server" }, [])

/-!  Supporting lemmas.  -/

theorem ccRun_length_le (c : CC) : ∀ s : List Char, (ccRun c s).length ≤ s.length := by
  intro s
  induction s with
  | nil => simp [ccRun]
  | cons ch t ih =>
    simp only [ccRun]
    split
    · simpa using Nat.succ_le_succ ih
    · simp

theorem mem_of_headOpt {α : Type} {l : List α} {x : α} (h : l.head? = some x) : x ∈ l := by
  cases l with
  | nil => simp at h
  | cons a t =>
    simp only [List.head?] at h
    simp [← Option.some.injEq _ _ |>.mp h]

theorem greedySplits_min_length (c : CC) (m : Nat) (s : List Char) :
    ∀ pr ∈ greedySplits c m s, m ≤ pr.1.length := by
  intro pr hpr
  unfold greedySplits at hpr
  simp only [List.mem_filterMap, List.mem_reverse, List.mem_range] at hpr
  obtain ⟨k, hk, hcond⟩ := hpr
  have hks : k ≤ s.length :=
    le_trans (Nat.lt_succ_iff.mp hk) (ccRun_length_le c s)
  by_cases hmk : m ≤ k
  · rw [if_pos hmk] at hcond
    have hpr' : (s.take k, s.drop k) = pr := (Option.some.injEq _ _).mp hcond
    rw [← hpr']
    simpa [List.length_take, Nat.min_eq_left hks] using hmk
  · rw [if_neg hmk] at hcond
    exact absurd hcond (by simp)

theorem matchToks_cap_length (cc ci : CC) (m : Nat) (s : List Char) :
    ∀ pr ∈ matchToks [Tok.cls cc, Tok.rep ci m] s, m + 1 ≤ pr.1.length := by
  intro pr hpr
  simp only [matchToks, List.mem_flatMap, List.mem_map, List.mem_singleton] at hpr
  obtain ⟨a, ha, b, ⟨cq, hcq, d, hd, hcd⟩, hab⟩ := hpr
  have ha1 : a.1.length = 1 := by
    unfold tokAlts at ha
    match s with
    | [] => simp at ha
    | ch :: r =>
      by_cases hm : cc.mem ch
      · simp [hm] at ha
        rw [ha]
        rfl
      · simp [hm] at ha
  have hd1 : d.1 = [] := by
    rw [hd]
  have hc : m ≤ cq.1.length := by
    unfold tokAlts at hcq
    exact greedySplits_min_length ci m a.2 cq hcq
  rw [← hab, ← hcd]
  simp only [List.length_append, ha1, hd1, List.length_nil]
  omega

theorem matchPatternAt_tier3_length (s : List Char) (g rest : List Char)
    (h : matchPatternAt tier3Pattern s = some (g, rest)) : 5 ≤ g.length := by
  unfold matchPatternAt tier3Pattern at h
  have hmem := mem_of_headOpt h
  simp only [List.mem_flatMap, List.mem_map] at hmem
  obtain ⟨a, ha, gg, hgg, q, hq, hpair⟩ := hmem
  have hg : g = gg.1 := (congrArg Prod.fst hpair).symm
  rw [hg]
  have := matchToks_cap_length CC.upperCS CC.identCS 4 a.2 gg hgg
  omega

theorem findallAux_tier3_length (fuel : Nat) :
    ∀ (s : List Char) (v : String), v ∈ findallAux tier3Pattern fuel s → 5 ≤ v.length := by
  induction fuel with
  | zero => intro s v h; simp [findallAux] at h
  | succ n ih =>
    intro s v
    have hdef : findallAux tier3Pattern (n + 1) s =
        (match matchPatternAt tier3Pattern s with
         | some (g, rest) => String.mk g :: findallAux tier3Pattern n rest
         | none =>
           match s with
           | [] => []
           | _ :: t => findallAux tier3Pattern n t) := rfl
    intro h
    rw [hdef] at h
    cases hm : matchPatternAt tier3Pattern s with
    | some pr =>
      rw [hm] at h
      rcases pr with ⟨g, rest⟩
      simp only [List.mem_cons] at h
      rcases h with h | h
      · rw [h]
        exact matchPatternAt_tier3_length s g rest hm
      · exact ih rest v h
    | none =>
      rw [hm] at h
      cases s with
      | nil => simp at h
      | cons c t => exact ih t v h

/-- Every capture of the tier-3 pattern is at least 5 characters long
(one `[A-Z]` plus at least four `[A-Z0-9_]`). -/
theorem findall_tier3_length (s : String) :
    ∀ v ∈ findall tier3Pattern s, 5 ≤ v.length := by
  intro v h
  exact findallAux_tier3_length (s.length + 1) s.toList v h

theorem negotiateStep_earlyReturn (l : Line) (sd : String) (o : Outcome)
    (h : negotiateStep l sd = .earlyReturn o) :
    o.success = false ∧ ∃ m, o.error = some m := by
  cases l with
  | eof =>
    simp only [negotiateStep] at h
    have ho := (NegResult.earlyReturn.injEq _ _).mp h
    rw [← ho]
    exact ⟨rfl, "No response from server", rfl⟩
  | text raw parsed =>
    cases parsed with
    | none =>
      simp only [negotiateStep] at h
      have ho := (NegResult.earlyReturn.injEq _ _).mp h
      rw [← ho]
      exact ⟨rfl, "Invalid JSON response", rfl⟩
    | some j =>
      simp only [negotiateStep] at h
      cases hdo : negotiateExtract j with
      | error e => rw [hdo] at h; simp at h
      | ok triple =>
        rw [hdo] at h
        rcases triple with ⟨pv, si, cap⟩
        simp at h

theorem finalizeStep_ok (pv si cap tools resources prompts : Json) (sd : String)
    (o : Outcome) (h : finalizeStep pv si cap tools resources prompts sd = .ok o) :
    o.success = true := by
  unfold finalizeStep at h
  cases h1 : tools.pyLen with
  | error e => rw [h1] at h; simp [Bind.bind, Except.bind] at h
  | ok tc =>
    rw [h1] at h
    cases h2 : resources.pyLen with
    | error e => rw [h2] at h; simp [Bind.bind, Except.bind] at h
    | ok rc =>
      rw [h2] at h
      cases h3 : prompts.pyLen with
      | error e => rw [h3] at h; simp [Bind.bind, Except.bind] at h
      | ok pc =>
        rw [h3] at h
        simp only [Bind.bind, Except.bind, Pure.pure, Except.pure, Except.ok.injEq] at h
        rw [← h]

theorem resPromptsStep_trace (b : Behavior) :
    (resPromptsStep b).2.2 = [resourcesRequest] ∨
    (resPromptsStep b).2.2 = [resourcesRequest, promptsRequest] := by
  unfold resPromptsStep
  rcases hw3 : b.write3 with _ | e
  · rcases hl3 : listValue "resources" logListed b.line3 with ⟨resVal, oe⟩
    rcases oe with _ | e3
    · rcases hw4 : b.write4 with _ | e4
      · right; rfl
      · right; rfl
    · left; rfl
  · left; rfl

/-- Each run of the exchange attempts a prefix of the fixed request
sequence: `initialize` alone (write failure or failed negotiation),
`initialize` then `tools/list` (failure inside the tools block), or those
two followed by whatever the resources/prompts block attempted. -/
theorem communicate_trace_split (b : Behavior) :
    (communicate_with_server b).2 = [initRequest] ∨
    (communicate_with_server b).2 = [initRequest, toolsRequest] ∨
    (communicate_with_server b).2 =
      [initRequest, toolsRequest] ++ (resPromptsStep b).2.2 := by
  unfold communicate_with_server
  rcases hw1 : b.write1 with _ | e1
  · rcases hneg : negotiateStep b.line1 b.stderrPeek with o | e | ⟨pv, si, cap⟩
    · left; rfl
    · left; rfl
    · rcases hw2 : b.write2 with _ | e2
      · rcases hlt : listValue "tools" logTools b.line2 with ⟨tv, te⟩
        rcases te with _ | e3
        · rcases hrp : resPromptsStep b with ⟨rv, pv2, tr⟩
          rcases hfin : finalizeStep pv si cap tv rv pv2 b.stderrPeek with e4 | o <;>
            simp [hfin, hrp]
        · right; left; rfl
      · right; left; rfl
  · left; rfl

/-- Each run of the exchange attempts one of the four prefixes of the
fixed request sequence - `initialize` alone, through `tools/list`,
through `resources/list`, or all four. -/
theorem communicate_trace (b : Behavior) :
    (communicate_with_server b).2 = [initRequest] ∨
    (communicate_with_server b).2 = [initRequest, toolsRequest] ∨
    (communicate_with_server b).2 = [initRequest, toolsRequest, resourcesRequest] ∨
    (communicate_with_server b).2 =
      [initRequest, toolsRequest, resourcesRequest, promptsRequest] := by
  rcases communicate_trace_split b with h | h | h
  · left; exact h
  · right; left; exact h
  · rcases resPromptsStep_trace b with h2 | h2 <;> rw [h2] at h
    · right; right; left; simpa using h
    · right; right; right; simpa using h

/-- When the `resources/list` write raises, the resources/prompts block
attempts no further request. -/
theorem resPromptsStep_write3_err (b : Behavior) (e : PyErr)
    (he : b.write3 = .err e) : (resPromptsStep b).2.2 = [resourcesRequest] := by
  unfold resPromptsStep
  rw [he]

/-!  Concrete behaviours and outcomes used by the claim theorems.  -/

/-- A well-formed `initialize` response from a demo server. -/
def initResponseJson : Json :=
  Json.obj
    [("jsonrpc", Json.str "2.0"), ("id", Json.num 1),
     ("result", Json.obj
       [("protocolVersion", Json.str "2024-11-05"),
        ("serverInfo", Json.obj [("name", Json.str "demo-server")]),
        ("capabilities", Json.obj [("tools", Json.obj [])])])]

/-- The stdout line carrying `initResponseJson`. -/
def initResponseLine : Line := Line.text "init response" (some initResponseJson)

/-!  Claim theorems.  -/

/-- C8: the claim says every blocking read of a connection attempt (the
spawn grace period and each per-request response read) is bounded by an
explicit timeout surfacing as a typed error.  The code belies it: the
four `process.stdout.readline()` calls (lines 194, 237, 272, 290) are
plain unbounded blocking reads, even though line 178 comments `Read
response with timeout` and `MCPProtocolClient.__init__` stores a
`timeout` attribute (line 88).  That attribute is never consulted: the
whole connection attempt is independent of it, which this theorem states
over the embedding (where the child behaviour, not a clock, determines
every read). -/
theorem C8_timeout_never_consulted (t1 t2 : Nat) (b : Behavior) :
    connect_to_mcp t1 b = connect_to_mcp t2 b := rfl

/-- C9: within one session the sequence ids of the requests written
(`initialize` = 1, `tools/list` = 2, `resources/list` = 3,
`prompts/list` = 4) are pairwise distinct and strictly increasing in the
order sent, for every behaviour of the child process. -/
theorem C9_request_ids_strictly_increasing (t : Nat) (b : Behavior) :
    List.Pairwise (· < ·) ((connect_to_mcp t b).2.map RpcReq.id) := by
  rcases hs : b.spawn with _ | c | m
  · have hc : (connect_to_mcp t b).2 = (communicate_with_server b).2 := by
      unfold connect_to_mcp; rw [hs]
    rw [hc]
    rcases communicate_trace b with h | h | h | h <;> rw [h] <;> decide
  · have hc : (connect_to_mcp t b).2 = [] := by
      unfold connect_to_mcp; rw [hs]
    rw [hc]; decide
  · have hc : (connect_to_mcp t b).2 = [] := by
      unfold connect_to_mcp; rw [hs]
    rw [hc]; decide

/-- A run in which spawn and negotiation succeed, the tools response is
missing, and the `resources/list` write then raises a broken-pipe error:
a failure at a list step. -/
def bC1 : Behavior :=
  { spawn := .started, stderrPeek := "", write1 := .ok, line1 := initResponseLine,
    write2 := .ok, line2 := .eof, write3 := .err (.osError "broken pipe"),
    line3 := .eof, write4 := .ok, line4 := .eof, stderrAtFailure := "" }

/-- C1 counterexample: in the run `bC1` the `resources/list` step fails
(its write raises), the exception is caught (at line 303), yet the
returned outcome has `success = true` and records no error text at all -
refuting the claim that every failure at any step is returned as an
outcome with `success = false` and the error recorded. -/
theorem C1_counterexample :
    (connect_to_mcp 30 bC1).1.success = true ∧
    (connect_to_mcp 30 bC1).1.error = none := ⟨rfl, rfl⟩

/-- C1 (amended): the collector never raises past its contract - for
every child behaviour it returns an outcome - and every outcome is
either a success, or a failure whose error text is recorded; but an
exception at a list step after successful negotiation is swallowed
locally and leaves `success = true` with no recorded error (see the
counterexample), so only failures that reach the collector boundary are
returned as `success = false` with the error recorded. -/
theorem C1_failures_recorded_or_success (t : Nat) (b : Behavior) :
    (connect_to_mcp t b).1.success = true ∨
    ((connect_to_mcp t b).1.success = false ∧
      ∃ m, (connect_to_mcp t b).1.error = some m) := by
  rcases hs : b.spawn with _ | c | m
  · have hc : connect_to_mcp t b = communicate_with_server b := by
      unfold connect_to_mcp; rw [hs]
    rw [hc]
    unfold communicate_with_server
    rcases hw1 : b.write1 with _ | e1
    · rcases hneg : negotiateStep b.line1 b.stderrPeek with o | e | ⟨pv, si, cap⟩
      · right
        exact negotiateStep_earlyReturn b.line1 b.stderrPeek o hneg
      · right; exact ⟨rfl, _, rfl⟩
      · rcases hw2 : b.write2 with _ | e2
        · rcases hlt : listValue "tools" logTools b.line2 with ⟨tv, te⟩
          rcases te with _ | e3
          · rcases hrp : resPromptsStep b with ⟨rv, pv2, tr⟩
            rcases hfin : finalizeStep pv si cap tv rv pv2 b.stderrPeek with e4 | o
            · right
              refine ⟨?_, e4.pyStr, ?_⟩ <;> simp [hfin, excOutcome]
            · left
              have ho := finalizeStep_ok pv si cap tv rv pv2 b.stderrPeek o hfin
              simpa [hfin] using ho
          · right; exact ⟨rfl, _, rfl⟩
        · right; exact ⟨rfl, _, rfl⟩
    · right; exact ⟨rfl, _, rfl⟩
  · right
    have hc : (connect_to_mcp t b).1 =
        { success := false, error := some "Failed to start MCP server" } := by
      unfold connect_to_mcp; rw [hs]
    rw [hc]
    exact ⟨rfl, _, rfl⟩
  · right
    have hc : (connect_to_mcp t b).1 =
        { success := false, error := some "Failed to start MCP server" } := by
      unfold connect_to_mcp; rw [hs]
    rw [hc]
    exact ⟨rfl, _, rfl⟩

/-- The server-info shapes on which the tier-2 inspection cannot raise:
falsy values (skipped by the `if server_info:` guard), and dicts whose
`name` and `version` fields - with the empty-string defaults of lines
412-413 - are strings. -/
def benignServerInfo : Json → Bool
  | Json.obj fs =>
    (match (lookupField fs "name").getD (Json.str "") with
     | Json.str _ => true
     | _ => false) &&
    (match (lookupField fs "version").getD (Json.str "") with
     | Json.str _ => true
     | _ => false)
  | j => !j.truthy

theorem tier2Check_benign (si : Json) (h : benignServerInfo si = true) :
    tier2Check si = .ok () := by
  cases si with
  | obj fs =>
    unfold benignServerInfo at h
    rw [Bool.and_eq_true] at h
    obtain ⟨hn, hv⟩ := h
    cases hln : (lookupField fs "name").getD (Json.str "") with
    | str sn =>
      cases hlv : (lookupField fs "version").getD (Json.str "") with
      | str sv =>
        by_cases ht : (Json.obj fs).truthy
        · simp [tier2Check, ht, Json.get, hln, hlv, Json.pyLower,
            Bind.bind, Except.bind, Pure.pure, Except.pure]
        · simp [tier2Check, ht, Pure.pure, Except.pure]
      | null => rw [hlv] at hv; simp at hv
      | bool x => rw [hlv] at hv; simp at hv
      | num x => rw [hlv] at hv; simp at hv
      | arr x => rw [hlv] at hv; simp at hv
      | obj x => rw [hlv] at hv; simp at hv
    | null => rw [hln] at hn; simp at hn
    | bool x => rw [hln] at hn; simp at hn
    | num x => rw [hln] at hn; simp at hn
    | arr x => rw [hln] at hn; simp at hn
    | obj x => rw [hln] at hn; simp at hn
  | null => simp [tier2Check, Json.truthy, Pure.pure, Except.pure]
  | bool x =>
    have ht : (Json.bool x).truthy = false := by
      unfold benignServerInfo at h
      simpa using h
    simp [tier2Check, ht, Pure.pure, Except.pure]
  | num x =>
    have ht : (Json.num x).truthy = false := by
      unfold benignServerInfo at h
      simpa using h
    simp [tier2Check, ht, Pure.pure, Except.pure]
  | str s =>
    have ht : (Json.str s).truthy = false := by
      unfold benignServerInfo at h
      simpa using h
    simp [tier2Check, ht, Pure.pure, Except.pure]
  | arr x =>
    have ht : (Json.arr x).truthy = false := by
      unfold benignServerInfo at h
      simpa using h
    simp [tier2Check, ht, Pure.pure, Except.pure]

/-- A successful outcome whose `server_info` is an object whose `name`
field is the number 5 - as the collector can produce, since the
negotiation block stores whatever `serverInfo` the server reports
without checking field types. -/
def oC2bad : Outcome :=
  { success := true, server_info := some (Json.obj [("name", Json.num 5)]) }

/-- C2 counterexample: on a success outcome whose `server_info.name` is
the number 5, `extract` does not return at all - the tier-2 inspection
of line 412 calls `.lower()` on a non-string and the `AttributeError`
propagates out of the extractor - refuting the claim that every success
outcome yields the record (required = false, no variables). -/
theorem C2_counterexample :
    extract_auth_from_mcp_result oC2bad =
      .error (PyErr.attributeError "int" "lower") := rfl

/-- C2 (amended): for every outcome with `success = true` whose
`server_info` is falsy or a dict with string (or absent) `name` and
`version` fields, `extract` returns (required = false, no candidate
variables), regardless of the diagnostic (stderr) text; outcomes whose
`server_info` has any other shape instead make the extractor raise
`AttributeError` (see the counterexample). -/
theorem C2_success_no_auth (o : Outcome) (h1 : o.success = true)
    (h2 : benignServerInfo (o.server_info.getD (Json.obj [])) = true) :
    extract_auth_from_mcp_result o = .ok (false, []) := by
  have h3 := tier2Check_benign (o.server_info.getD (Json.obj [])) h2
  unfold extract_auth_from_mcp_result
  simp [h1, h3, Bind.bind, Except.bind, Pure.pure, Except.pure]

/-- A success outcome carrying auth-sounding stderr text. -/
def oC2w : Outcome := { success := true, stderr := some "ANTHROPIC_API_KEY is not set" }

/-- C2 witness: the amended theorem at a success outcome whose stderr
text names a credential variable. -/
theorem C2_witness : extract_auth_from_mcp_result oC2w = .ok (false, []) :=
  C2_success_no_auth oC2w rfl rfl

/-- C5: for every outcome with `success = false` whose combined
error/stderr text yields at least one tier-1 pattern capture containing
an allowlist keyword, `extract` returns required = true with the
deduplicated capture list, short-circuiting the lower tiers. -/
theorem C5_tier1_short_circuit (o : Outcome) (h1 : o.success = false)
    (h2 : tier1Vars o ≠ []) :
    extract_auth_from_mcp_result o = .ok (true, pySet (tier1Vars o)) := by
  unfold extract_auth_from_mcp_result
  rw [h1]
  simp [h2, Bind.bind, Except.bind, Pure.pure, Except.pure]

/-- The failure outcome of the claim: error text
`Missing required environment variable: STRIPE_SECRET_KEY`. -/
def oC5w : Outcome :=
  { success := false,
    error := some "Missing required environment variable: STRIPE_SECRET_KEY",
    stderr := some "" }

/-- C5 witness: on the claim example the single tier-1 capture is
STRIPE_SECRET_KEY and `extract` returns it with required = true. -/
theorem C5_witness :
    extract_auth_from_mcp_result oC5w = .ok (true, ["STRIPE_SECRET_KEY"]) := by
  rw [C5_tier1_short_circuit oC5w rfl (by decide)]
  rfl

/-- A failure outcome whose stderr names `DATABASE_URL`: a capitalized
identifier of at least 5 characters containing the keyword `url`, with
no tier-1 pattern match in the combined error text. -/
def oC6bad : Outcome :=
  { success := false, error := some "", stderr := some "DATABASE_URL missing" }

/-- C6 counterexample: the claim says the tier-3 scan uses the same
keyword allowlist as tier 1, which includes `url` and `client`; the
code's tier-3 allowlist (line 431) is only key, token, secret, auth,
api.  On stderr naming `DATABASE_URL` the claim predicts required = true
with that variable; the code returns required = false with no
variables. -/
theorem C6_counterexample :
    extract_auth_from_mcp_result oC6bad = .ok (false, []) := rfl

/-- C6 (amended): when tier 1 finds no candidate and the outcome is not
a success, the tier-3 scan accepts a capture of the loose pattern if and
only if it contains one of key, token, secret, auth, api (without url or
client, which belong to tier 1 only); the result keeps at most 5
distinct matches, `required` is exactly their non-emptiness, and every
capture of the loose pattern is a capitalized token of at least 5
characters. -/
theorem C6_tier3_scan (o : Outcome) (h1 : o.success = false)
    (h2 : tier1Vars o = []) :
    extract_auth_from_mcp_result o =
      .ok (decide (0 < (tier3Unique o).length), tier3Unique o) ∧
    (tier3Unique o).length ≤ 5 ∧
    (∀ v, v ∈ tier3Vars (o.stderr.getD "") ↔
      (v ∈ findall tier3Pattern (o.stderr.getD "") ∧
        (substrB "key" (pyLowerStr v) = true ∨ substrB "token" (pyLowerStr v) = true ∨
         substrB "secret" (pyLowerStr v) = true ∨ substrB "auth" (pyLowerStr v) = true ∨
         substrB "api" (pyLowerStr v) = true))) ∧
    (∀ v ∈ findall tier3Pattern (o.stderr.getD ""), 5 ≤ v.length) := by
  refine ⟨?_, ?_, ?_, ?_⟩
  · unfold extract_auth_from_mcp_result
    rw [h1, h2]
    simp [Bind.bind, Except.bind, Pure.pure, Except.pure]
  · exact List.length_take_le 5 _
  · intro v
    simp only [tier3Vars, List.mem_filter, kwAccept5, kw5, List.any_cons,
      List.any_nil, Bool.or_eq_true, Bool.or_false]
  · exact findall_tier3_length _

/-- A failure outcome whose stderr names `MY_API_TOKEN` and matches no
tier-1 pattern. -/
def oC6w : Outcome :=
  { success := false, error := some "",
    stderr := some "startup failure MY_API_TOKEN absent" }

/-- C6 witness: the amended theorem at a concrete failure outcome whose
stderr carries one qualifying token. -/
theorem C6_witness :
    extract_auth_from_mcp_result oC6w = .ok (true, ["MY_API_TOKEN"]) := by
  rw [(C6_tier3_scan oC6w rfl (by decide)).1]
  rfl

/-- A run in which negotiation succeeds but the `tools/list` step fails:
its response line is not JSON.  All writes succeed. -/
def bC3 : Behavior :=
  { spawn := .started, stderrPeek := "", write1 := .ok, line1 := initResponseLine,
    write2 := .ok, line2 := Line.text "not json" none, write3 := .ok,
    line3 := .eof, write4 := .ok, line4 := .eof, stderrAtFailure := "" }

/-- C3 counterexample: in the run `bC3` the `tools/list` step fails (a
non-JSON response, caught at line 260, leaving no tools), yet both
remaining list requests are still written to the server - refuting the
claim that a failure at any step short-circuits all remaining list
calls. -/
theorem C3_counterexample :
    (connect_to_mcp 30 bC3).2.map RpcReq.method =
      ["initialize", "tools/list", "resources/list", "prompts/list"] ∧
    (connect_to_mcp 30 bC3).1.tools = some (Json.arr []) := ⟨rfl, rfl⟩

/-- C3 (amended): a failed negotiation short-circuits all three list
calls (only `initialize` is ever written), and an exception raised by the
`resources/list` write short-circuits the `prompts/list` request; but a
list step that merely receives no line or a malformed line does not
prevent the subsequent list requests (see the counterexample). -/
theorem C3_negotiation_failure_short_circuits (t : Nat) (b : Behavior)
    (h1 : b.spawn = .started) (h2 : b.write1 = .ok) :
    ((∀ pv si cap, negotiateStep b.line1 b.stderrPeek ≠ .ok pv si cap) →
      (connect_to_mcp t b).2 = [initRequest]) ∧
    (∀ e, b.write3 = .err e →
      "prompts/list" ∉ (connect_to_mcp t b).2.map RpcReq.method) := by
  have hc : connect_to_mcp t b = communicate_with_server b := by
    unfold connect_to_mcp; rw [h1]
  rw [hc]
  constructor
  · intro hneg
    unfold communicate_with_server
    rw [h2]
    rcases hn : negotiateStep b.line1 b.stderrPeek with o | e | ⟨pv, si, cap⟩
    · rfl
    · rfl
    · exact absurd hn (hneg pv si cap)
  · intro e he
    rcases communicate_trace_split b with h | h | h <;> rw [h]
    · decide
    · decide
    · rw [resPromptsStep_write3_err b e he]
      decide

/-- A run whose first response line is empty (stream closed before any
response): negotiation fails with `No response from server`. -/
def bC3w : Behavior :=
  { spawn := .started, stderrPeek := "", write1 := .ok, line1 := .eof,
    write2 := .ok, line2 := .eof, write3 := .ok, line3 := .eof,
    write4 := .ok, line4 := .eof, stderrAtFailure := "" }

/-- C3 witness: the amended theorem at a run with no negotiation
response - only `initialize` is written. -/
theorem C3_witness : (connect_to_mcp 11 bC3w).2 = [initRequest] :=
  (C3_negotiation_failure_short_circuits 11 bC3w rfl rfl).1
    (by intro pv si cap h; simp [bC3w, negotiateStep] at h)

/-- A run in which negotiation succeeds and the `resources/list` write
then raises (the child closed its stdin). -/
def bC4 : Behavior :=
  { spawn := .started, stderrPeek := "", write1 := .ok, line1 := initResponseLine,
    write2 := .ok, line2 := .eof, write3 := .err (.osError "stdin closed"),
    line3 := .eof, write4 := .ok, line4 := .eof, stderrAtFailure := "" }

/-- C4 counterexample: in the run `bC4` negotiation succeeded (the
outcome has `success = true`), yet only two list calls were attempted -
the raising `resources/list` write is caught by the block of lines
266-304 and `prompts/list` is never requested - refuting the claim that
after every successful negotiation exactly the three list calls are
attempted regardless of each call's outcome. -/
theorem C4_counterexample :
    (connect_to_mcp 30 bC4).1.success = true ∧
    (connect_to_mcp 30 bC4).2.map RpcReq.method =
      ["initialize", "tools/list", "resources/list"] := ⟨rfl, rfl⟩

/-- C4 (amended): for every run in which negotiation succeeds and no
exception escapes a list step - the three writes succeed and the tools
and resources response handling raises nothing - the three list calls
are attempted in the fixed order tools, resources, prompts, regardless
of the content of the response lines (absent or malformed responses
satisfy the no-exception hypotheses); an exception at a list step
instead skips the remaining list calls (see the counterexample). -/
theorem C4_three_list_calls (t : Nat) (b : Behavior) (pv si cap : Json)
    (h1 : b.spawn = .started) (h2 : b.write1 = .ok)
    (h3 : negotiateStep b.line1 b.stderrPeek = .ok pv si cap)
    (h4 : b.write2 = .ok)
    (h5 : (listValue "tools" logTools b.line2).2 = none)
    (h6 : b.write3 = .ok)
    (h7 : (listValue "resources" logListed b.line3).2 = none)
    (h8 : b.write4 = .ok) :
    (connect_to_mcp t b).2.map RpcReq.method =
      ["initialize", "tools/list", "resources/list", "prompts/list"] := by
  have hc : connect_to_mcp t b = communicate_with_server b := by
    unfold connect_to_mcp; rw [h1]
  rw [hc]
  have hrp : (resPromptsStep b).2.2 = [resourcesRequest, promptsRequest] := by
    unfold resPromptsStep
    rw [h6]
    rcases hlr : listValue "resources" logListed b.line3 with ⟨rv, re⟩
    rw [hlr] at h7
    simp only at h7
    subst h7
    rw [h8]
  unfold communicate_with_server
  rw [h2, h3, h4]
  rcases hlt : listValue "tools" logTools b.line2 with ⟨tv, te⟩
  rw [hlt] at h5
  simp only at h5
  subst h5
  rcases hrp2 : resPromptsStep b with ⟨rv, pv2, tr⟩
  rw [hrp2] at hrp
  have htr : tr = [resourcesRequest, promptsRequest] := hrp
  rcases hfin : finalizeStep pv si cap tv rv pv2 b.stderrPeek with e4 | o <;>
    simp [hfin, htr, initRequest, toolsRequest, resourcesRequest, promptsRequest]

/-- A run in which negotiation succeeds and all three list responses are
absent (end of stream), with every write succeeding. -/
def bC4w : Behavior :=
  { spawn := .started, stderrPeek := "", write1 := .ok, line1 := initResponseLine,
    write2 := .ok, line2 := .eof, write3 := .ok, line3 := .eof,
    write4 := .ok, line4 := .eof, stderrAtFailure := "" }

/-- C4 witness: the amended theorem at a run whose list responses are
all absent - the three list calls are still attempted in order. -/
theorem C4_witness :
    (connect_to_mcp 9 bC4w).2.map RpcReq.method =
      ["initialize", "tools/list", "resources/list", "prompts/list"] :=
  C4_three_list_calls 9 bC4w (Json.str "2024-11-05")
    (Json.obj [("name", Json.str "demo-server")])
    (Json.obj [("tools", Json.obj [])])
    rfl rfl rfl rfl rfl rfl rfl rfl

/-- A launch command whose process exits during the 3-second grace
period (code 1) producing no output. -/
def bC7 : Behavior :=
  { spawn := .exitedEarly 1, stderrPeek := "", write1 := .ok, line1 := .eof,
    write2 := .ok, line2 := .eof, write3 := .ok, line3 := .eof,
    write4 := .ok, line4 := .eof, stderrAtFailure := "" }

/-- C7 counterexample: when the process exits within the grace period,
the outcome error text is `Failed to start MCP server` (line 98), not
`No response from server`, and the outcome carries no tools field at all
(the dict of line 98 has only success and error keys) - refuting the
claimed outcome shape. -/
theorem C7_counterexample :
    (connect_to_mcp 30 bC7).1.success = false ∧
    (connect_to_mcp 30 bC7).1.error = some "Failed to start MCP server" ∧
    (connect_to_mcp 30 bC7).1.tools = none := ⟨rfl, rfl, rfl⟩

/-- C7 (amended): a process that exits within the spawn grace period
yields the outcome (success = false, errorText = `Failed to start MCP
server`) with no tools field; the error text `No response from server`
(still with no tools field, and with the peeked stderr attached) belongs
to the run in which the process survives the grace period but its first
response read returns nothing. -/
theorem C7_early_exit_outcome (t : Nat) (b : Behavior) :
    (∀ c, b.spawn = .exitedEarly c →
      (connect_to_mcp t b).1 =
        { success := false, error := some "Failed to start MCP server" }) ∧
    (b.spawn = .started → b.write1 = .ok → b.line1 = .eof →
      (connect_to_mcp t b).1 =
        { success := false, error := some "No response from server",
          stderr := some b.stderrPeek }) := by
  constructor
  · intro c hc
    unfold connect_to_mcp
    rw [hc]
  · intro h1 h2 h3
    unfold connect_to_mcp communicate_with_server
    rw [h1, h2, h3]
    rfl

/-- A surviving process that produces no stdout line, with buffered
stderr text. -/
def bC7w : Behavior :=
  { spawn := .started, stderrPeek := "warning text", write1 := .ok, line1 := .eof,
    write2 := .ok, line2 := .eof, write3 := .ok, line3 := .eof,
    write4 := .ok, line4 := .eof, stderrAtFailure := "" }

/-- C7 witness: the amended theorem at a run that survives the grace
period and then yields no response line. -/
theorem C7_witness :
    (connect_to_mcp 7 bC7w).1 =
      { success := false, error := some "No response from server",
        stderr := some "warning text" } :=
  (C7_early_exit_outcome 7 bC7w).2 rfl rfl rfl

/-- A run whose negotiation response line is the JSON value `42` (a
valid JSON value that is not an object). -/
def bC10bad : Behavior :=
  { spawn := .started, stderrPeek := "", write1 := .ok,
    line1 := Line.text "42" (some (Json.num 42)), write2 := .ok, line2 := .eof,
    write3 := .ok, line3 := .eof, write4 := .ok, line4 := .eof,
    stderrAtFailure := "" }

/-- C10 counterexample: the claim quantifies over responses parsing as
any JSON value, but on the JSON value `42` the `.get` chain of line 204
raises `AttributeError`, the handler at line 330 catches it, and the
outcome is a failure with no list call attempted - not a success. -/
theorem C10_counterexample :
    (connect_to_mcp 30 bC10bad).1.success = false ∧
    (connect_to_mcp 30 bC10bad).1.error = some "int object has no attribute get" ∧
    (connect_to_mcp 30 bC10bad).2.map RpcReq.method = ["initialize"] := ⟨rfl, rfl, rfl⟩

/-- C10 (amended): if the negotiation response line parses as a JSON
object with no `result` field - in particular a JSON-RPC error response
carrying `id` and `error` only - the session treats negotiation as
succeeded without ever checking for a `result` field or the absence of
an `error` field: the extracted protocolVersion/serverInfo/capabilities
default from an empty result (None and two empty dicts), the session
proceeds to write `tools/list`, and when the rest of the run raises
nothing (here: all writes succeed and every later read returns end of
stream) the returned outcome has `success = true` with those defaulted
fields; a non-object JSON value instead raises and yields a failure (see
the counterexample). -/
theorem C10_error_response_negotiates (t : Nat) (b : Behavior)
    (raw : String) (fields : List (String × Json))
    (h1 : b.spawn = .started) (h2 : b.write1 = .ok)
    (h3 : b.line1 = Line.text raw (some (Json.obj fields)))
    (h4 : lookupField fields "result" = none) :
    negotiateStep b.line1 b.stderrPeek = .ok Json.null (Json.obj []) (Json.obj []) ∧
    ((connect_to_mcp t b).2.map RpcReq.method).take 2 = ["initialize", "tools/list"] ∧
    (b.write2 = .ok → b.write3 = .ok → b.write4 = .ok →
      b.line2 = .eof → b.line3 = .eof → b.line4 = .eof →
      (connect_to_mcp t b).1 =
        { success := true, tools := some (Json.arr []),
          resources := some (Json.arr []), prompts := some (Json.arr []),
          protocol_version := some Json.null, server_info := some (Json.obj []),
          capabilities := some (Json.obj []), total_functionality := some 0,
          stderr := some b.stderrPeek }) := by
  have hc : connect_to_mcp t b = communicate_with_server b := by
    unfold connect_to_mcp; rw [h1]
  have hneg : negotiateStep b.line1 b.stderrPeek =
      .ok Json.null (Json.obj []) (Json.obj []) := by
    rw [h3]
    simp [negotiateStep, negotiateExtract, Json.get, Json.keysList, h4,
      Bind.bind, Except.bind, Pure.pure, Except.pure, lookupField]
  refine ⟨hneg, ?_, ?_⟩
  · rw [hc]
    unfold communicate_with_server
    rw [h2, hneg]
    rcases hw2 : b.write2 with _ | e2
    · rcases hlt : listValue "tools" logTools b.line2 with ⟨tv, te⟩
      rcases te with _ | e3
      · rcases hrp : resPromptsStep b with ⟨rv, pv2, tr⟩
        rcases hfin : finalizeStep Json.null (Json.obj []) (Json.obj []) tv rv pv2
            b.stderrPeek with e4 | o <;>
          simp [hfin, initRequest, toolsRequest]
      · rfl
    · rfl
  · intro hw2 hw3 hw4 hl2 hl3 hl4
    rw [hc]
    unfold communicate_with_server resPromptsStep
    rw [h2, hneg, hw2, hl2, hw3, hl3, hw4, hl4]
    rfl

/-- A run whose negotiation response is a JSON-RPC error response (id
and error fields, no result), followed by end of stream on every later
read. -/
def bC10w : Behavior :=
  { spawn := .started, stderrPeek := "", write1 := .ok,
    line1 := Line.text "error response"
      (some (Json.obj [("jsonrpc", Json.str "2.0"), ("id", Json.num 1),
        ("error", Json.obj [("code", Json.num (-32600)),
          ("message", Json.str "invalid request")])])),
    write2 := .ok, line2 := .eof, write3 := .ok, line3 := .eof,
    write4 := .ok, line4 := .eof, stderrAtFailure := "" }

/-- C10 witness: the amended theorem at a run whose negotiation response
is a JSON-RPC error response - the outcome is a success with every
server field defaulted. -/
theorem C10_witness :
    (connect_to_mcp 5 bC10w).1 =
      { success := true, tools := some (Json.arr []),
        resources := some (Json.arr []), prompts := some (Json.arr []),
        protocol_version := some Json.null, server_info := some (Json.obj []),
        capabilities := some (Json.obj []), total_functionality := some 0,
        stderr := some "" } :=
  (C10_error_response_negotiates 5 bC10w "error response"
    [("jsonrpc", Json.str "2.0"), ("id", Json.num 1),
     ("error", Json.obj [("code", Json.num (-32600)),
       ("message", Json.str "invalid request")])]
    rfl rfl rfl rfl).2.2 rfl rfl rfl rfl rfl rfl

end MCPCrawler
